import Mathlib

/-!
# Verification of the artoolkitX camera-calibration core

A shallow embedding of the calibration session (`src/Calibration.cpp`,
`src/Calibration.hpp`) and of the capture-flow controller (`src/flow.cpp`)
of the artoolkitx-calibration utility, together with proofs of the
behavioural properties stated in the design specification.

Modelling conventions:
* `cv::Point2f` coordinates are never computed with in the modelled code,
  so feature positions are carried as pairs of integers.
* External vision-library routines (`cv::cornerSubPix`,
  `cv::findChessboardCorners`) are passed in as explicit function
  parameters: the modelled code only moves their results around.
* The C++ `int m_calibImageCountMax` is used as a non-negative count (it is
  promoted to `size_t` in every comparison against `m_corners.size()`), so
  it is modelled as `Nat`.
* The corner-finder worker thread (`thread_sub`) is modelled by a phase
  field: `idle` (waiting for a start signal), `busy` (job in flight),
  `done` (job finished, completion signalled but not yet collected).
  `threadGetStatus` is `phase = done`; `threadGetBusyStatus` is
  `phase ≠ idle`; `threadEndWait` after a completed job resets to `idle`.
-/

namespace ARCalib

/-- A 2-D feature position (`cv::Point2f` in the source). -/
structure Point2f where
  x : Int
  y : Int
deriving DecidableEq, Repr

/-- The enum `Calibration::CalibrationPatternType` (Calibration.hpp lines 52-56). -/
inductive CalibrationPatternType where
  | CHESSBOARD
  | CIRCLES_GRID
  | ASYMMETRIC_CIRCLES_GRID
deriving DecidableEq, Repr

/-- The class `Calibration::CalibrationCornerFinderData` (Calibration.hpp lines 160-178):
the inputs and outputs of one corner-finding run.  `videoFrame` is the owned
pixel buffer (single-channel, one `Nat` per pixel); `calibImage` is only a
header aliasing `videoFrame`, so it needs no separate field.  The C++
`int cornerFoundAllFlag` is used strictly as a boolean. -/
structure CalibrationCornerFinderData where
  patternType : CalibrationPatternType
  patternSize : Nat × Nat
  videoWidth : Nat
  videoHeight : Nat
  videoFrame : List Nat
  cornerFoundAllFlag : Bool
  corners : List Point2f
deriving DecidableEq, Repr

/-- Corner-finder worker thread phase (see the module docstring). -/
inductive WorkerPhase where
  | idle
  | busy
  | done
deriving DecidableEq, Repr

/-- The `Calibration` session state (Calibration.hpp lines 180-191). -/
structure Calibration where
  m_cornerFinderData : CalibrationCornerFinderData
  m_cornerFinderResultData : CalibrationCornerFinderData
  m_corners : List (List Point2f)
  m_calibImageCountMax : Nat
  m_patternType : CalibrationPatternType
  m_patternSize : Nat × Nat
  m_chessboardSquareWidth : Nat
  m_videoWidth : Nat
  m_videoHeight : Nat
  workerPhase : WorkerPhase
deriving DecidableEq, Repr

/-- The `Calibration` constructor (Calibration.cpp lines 135-150).  It
initialises the members and spawns the worker (initially idle); it performs
no validation of any kind — in particular no check of `patternType`.
`m_cornerFinderResultData` is constructed with video dimensions 0×0, so its
frame buffer starts empty; `m_cornerFinderData`'s buffer is allocated
(uninitialised in C++; modelled as zero-filled, its initial contents are
never observed before being overwritten). -/
def Calibration.init (patternType : CalibrationPatternType)
    (calibImageCountMax : Nat) (patternSize : Nat × Nat)
    (chessboardSquareWidth : Nat) (videoWidth videoHeight : Nat) :
    Calibration :=
  { m_cornerFinderData :=
      { patternType := patternType
        patternSize := patternSize
        videoWidth := videoWidth
        videoHeight := videoHeight
        videoFrame := List.replicate (videoWidth * videoHeight) 0
        cornerFoundAllFlag := false
        corners := [] }
    m_cornerFinderResultData :=
      { patternType := patternType
        patternSize := patternSize
        videoWidth := 0
        videoHeight := 0
        videoFrame := []
        cornerFoundAllFlag := false
        corners := [] }
    m_corners := []
    m_calibImageCountMax := calibImageCountMax
    m_patternType := patternType
    m_patternSize := patternSize
    m_chessboardSquareWidth := chessboardSquareWidth
    m_videoWidth := videoWidth
    m_videoHeight := videoHeight
    workerPhase := WorkerPhase.idle }

/-- The accessor `Calibration::calibImageCount` (Calibration.hpp line 79). -/
def Calibration.calibImageCount (c : Calibration) : Nat :=
  c.m_corners.length

/-- The method `Calibration::capture` (Calibration.cpp lines 251-281).
`cornerSubPix` stands for the external `cv::cornerSubPix`, taking the image
pixels backing `calibImage` and the corner sequence and returning the
refined sequence; in the source it refines
`m_cornerFinderResultData.corners` *in place* (under the result lock), and
the refined sequence is then appended to `m_corners`. -/
def Calibration.capture
    (cornerSubPix : List Nat → List Point2f → List Point2f)
    (c : Calibration) : Bool × Calibration :=
  if c.m_corners.length ≥ c.m_calibImageCountMax then (false, c)
  else if c.m_cornerFinderResultData.cornerFoundAllFlag then
    let refined := cornerSubPix c.m_cornerFinderResultData.videoFrame
        c.m_cornerFinderResultData.corners
    (true,
     { c with
        m_cornerFinderResultData :=
          { c.m_cornerFinderResultData with corners := refined }
        m_corners := c.m_corners ++ [refined] })
  else (false, c)

/-- The method `Calibration::uncapture` (Calibration.cpp lines 283-288):
`pop_back` on the captured-set collection. -/
def Calibration.uncapture (c : Calibration) : Bool × Calibration :=
  if c.m_corners.length ≤ 0 then (false, c)
  else (true, { c with m_corners := c.m_corners.dropLast })

/-- The method `Calibration::uncaptureAll` (Calibration.cpp lines 290-295):
`clear` on the captured-set collection. -/
def Calibration.uncaptureAll (c : Calibration) : Bool × Calibration :=
  if c.m_corners.length ≤ 0 then (false, c)
  else (true, { c with m_corners := [] })

/-- The method `Calibration::frame` (Calibration.cpp lines 152-196).  One cycle of the
frame pump: if the worker has completed a job, collect it (reset the worker
and publish `m_cornerFinderData` into `m_cornerFinderResultData` under the
result lock — a wholesale copy); then, if the worker is not busy and the
video source yields a new frame (`newFrame = some buffLuma`, the luma plane
returned by `checkoutFrameIfNewerThan`), copy it into the owned frame
buffer and signal the worker to start.  Returns `true` unconditionally. -/
def Calibration.frame (newFrame : Option (List Nat)) (c : Calibration) :
    Bool × Calibration :=
  let c1 :=
    if c.workerPhase = WorkerPhase.done then
      { c with
          m_cornerFinderResultData := c.m_cornerFinderData
          workerPhase := WorkerPhase.idle }
    else c
  let c2 :=
    if c1.workerPhase = WorkerPhase.idle then
      match newFrame with
      | some buffLuma =>
          { c1 with
              m_cornerFinderData :=
                { c1.m_cornerFinderData with videoFrame := buffLuma }
              workerPhase := WorkerPhase.busy }
      | none => c1
    else c1
  (true, c2)

/-- The method `Calibration::cornerFinderResultsLockAndFetch`
(Calibration.cpp lines 198-205): under the result lock, copies out the
found-flag and the corner sequence and exposes the published frame. -/
def Calibration.cornerFinderResultsLockAndFetch (c : Calibration) :
    Bool × (Bool × List Point2f × List Nat) :=
  (true,
   (c.m_cornerFinderResultData.cornerFoundAllFlag,
    c.m_cornerFinderResultData.corners,
    c.m_cornerFinderResultData.videoFrame))

/-- One detection job of the corner-finder worker
(`Calibration::cornerFinder`, Calibration.cpp lines 215-249): dispatch on
the pattern type.  For `CHESSBOARD` it runs the external
`cv::findChessboardCorners` (passed in as `findChessboardCorners`, from the
frame pixels to the found-flag and corner sequence) and stores the results.
For every other pattern type the worker hits the `default:` arm, which
prints `???` and calls `exit(0)` — a fatal process abort, modelled as
`none`. -/
def cornerFinderRun
    (findChessboardCorners : List Nat → Bool × List Point2f)
    (d : CalibrationCornerFinderData) :
    Option CalibrationCornerFinderData :=
  match d.patternType with
  | CalibrationPatternType.CHESSBOARD =>
      let r := findChessboardCorners d.videoFrame
      some { d with cornerFoundAllFlag := r.1, corners := r.2 }
  | _ => none

/-!
## The flow controller (`src/flow.cpp`)

`EVENT_t` is declared in `flow.hpp` (not among the sources); `flow.cpp`
uses its values as a bitmask (`event & gEventMask`,
`EVENT_TOUCH | EVENT_BACK_BUTTON`), and the specification lists the kinds
NONE, TOUCH, BACK_BUTTON, MODAL.  It is modelled as a record of one
boolean per event bit; `EVENT_NONE` is the empty mask.
-/

/-- The event bitmask type `EVENT_t`. -/
structure EVENT_t where
  touch : Bool
  backButton : Bool
  modal : Bool
deriving DecidableEq, Repr

/-- The empty event mask `EVENT_NONE`. -/
def EVENT_NONE : EVENT_t := ⟨false, false, false⟩

/-- The event `EVENT_TOUCH`. -/
def EVENT_TOUCH : EVENT_t := ⟨true, false, false⟩

/-- The event `EVENT_BACK_BUTTON`. -/
def EVENT_BACK_BUTTON : EVENT_t := ⟨false, true, false⟩

/-- The event `EVENT_MODAL`. -/
def EVENT_MODAL : EVENT_t := ⟨false, false, true⟩

/-- Bitwise `&` on event masks. -/
def EVENT_t.inter (a b : EVENT_t) : EVENT_t :=
  ⟨a.touch && b.touch, a.backButton && b.backButton, a.modal && b.modal⟩

/-- Bitwise `|` on event masks. -/
def EVENT_t.union (a b : EVENT_t) : EVENT_t :=
  ⟨a.touch || b.touch, a.backButton || b.backButton, a.modal || b.modal⟩

/-- The enum `FLOW_STATE` (declared in `flow.hpp`; the five values appear in
`flow.cpp` and in the specification's FlowState). -/
inductive FLOW_STATE where
  | FLOW_STATE_NOT_INITED
  | FLOW_STATE_WELCOME
  | FLOW_STATE_CAPTURING
  | FLOW_STATE_CALIBRATING
  | FLOW_STATE_DONE
deriving DecidableEq, Repr

/-- The one-deep event mailbox of flow.cpp: the globals `gEvent` (the
single pending-event slot) and `gEventMask` (the currently active mask). -/
structure FlowEventState where
  gEvent : EVENT_t
  gEventMask : EVENT_t
deriving DecidableEq, Repr

/-- The function `flowSetEventMask` (flow.cpp lines 168-173). -/
def flowSetEventMask (eventMask : EVENT_t) (s : FlowEventState) :
    FlowEventState :=
  { s with gEventMask := eventMask }

/-- The function `flowHandleEvent` (flow.cpp lines 175-192): under the event lock, an
event that does not intersect the active mask is discarded (`false`,
nothing stored, no one signalled); an in-mask event overwrites the pending
slot and signals the waiting consumer (`true`). -/
def flowHandleEvent (event : EVENT_t) (s : FlowEventState) :
    Bool × FlowEventState :=
  if event.inter s.gEventMask = EVENT_NONE then (false, s)
  else (true, { s with gEvent := event })

/-- The function `flowWaitForEvent` (flow.cpp lines 194-213) at the moment the consumer
wakes with a pending event (it blocks while `gEvent == EVENT_NONE` and no
stop was requested): returns the pending event and clears the slot. -/
def flowWaitForEvent (s : FlowEventState) : EVENT_t × FlowEventState :=
  (s.gEvent, { s with gEvent := EVENT_NONE })

/-- Post a burst of events through `flowHandleEvent` before the consumer
wakes. -/
def postEvents (events : List EVENT_t) (s : FlowEventState) :
    FlowEventState :=
  events.foldl (fun s e => (flowHandleEvent e s).2) s

/-- The most recently posted event of `events` that intersects `mask`, or
`pending` (the previously pending slot value) if none does. -/
def lastInMask (mask pending : EVENT_t) (events : List EVENT_t) : EVENT_t :=
  events.foldl (fun acc e => if e.inter mask = EVENT_NONE then acc else e)
    pending

/-!
## The flow thread's capture loop (`flowThread`, flow.cpp lines 222-334)

The thread body is modelled as functions producing, besides the updated
session state, a trace of the observable actions it performs, in order.
`gStop` is `false` throughout (no shutdown request), and a completion
callback is registered (`flowInitAndStart` stored a non-null `gCallback`,
as the application does).
-/

/-- Observable actions of the flow thread, in program order. -/
inductive FlowAct where
  /-- a `flowSetEventMask(m)` call -/
  | setMask (m : EVENT_t)
  /-- a `flowStateSet(st)` call -/
  | setState (st : FLOW_STATE)
  /-- a `flowWaitForEvent()` call (the thread blocks for an event here) -/
  | waitEvent
  /-- a `gFlowCalib->capture()` call and its result -/
  | callCapture (ok : Bool)
  /-- a `gFlowCalib->uncapture()` call -/
  | callUncapture
  /-- a `gFlowCalib->uncaptureAll()` call -/
  | callUncaptureAll
  /-- the synchronous `gFlowCalib->calib(...)` computation -/
  | callCalib
  /-- the completion-callback invocation `(*gCallback)(...)` -/
  | callCallback
deriving DecidableEq, Repr

/-- The capture loop (the `do { ... } while` of flow.cpp lines 262-284),
entered in state CAPTURING with mask `TOUCH|BACK_BUTTON`.  `events` is the
sequence of events successive `flowWaitForEvent` calls deliver;
`captureDone` is `captureDoneSinceBackButtonLastPressed`.  Returns `none`
if the event sequence is exhausted while the loop still blocks, else
`some (c, broke, remaining, trace)`: the session state on exit, whether the
loop exited via `break` (the operator-cancelled path) rather than via the
`calibImageCount() < calibImageCountMax()` condition turning false, the
undelivered events, and the action trace. -/
def captureLoop (cornerSubPix : List Nat → List Point2f → List Point2f) :
    List EVENT_t → Bool → Calibration →
    Option (Calibration × Bool × List EVENT_t × List FlowAct)
  | [], _, _ => none
  | e :: rest, captureDone, c =>
    if e = EVENT_TOUCH then
      let r := c.capture cornerSubPix
      if r.2.calibImageCount < r.2.m_calibImageCountMax then
        (captureLoop cornerSubPix rest (captureDone || r.1) r.2).map
          (fun q => (q.1, q.2.1, q.2.2.1,
            FlowAct.waitEvent :: FlowAct.callCapture r.1 :: q.2.2.2))
      else
        some (r.2, false, rest, [FlowAct.waitEvent, FlowAct.callCapture r.1])
    else if e = EVENT_BACK_BUTTON then
      if captureDone = false then
        some ((c.uncaptureAll).2, true, rest,
          [FlowAct.waitEvent, FlowAct.callUncaptureAll])
      else
        let c' := (c.uncapture).2
        if c'.calibImageCount < c'.m_calibImageCountMax then
          (captureLoop cornerSubPix rest false c').map
            (fun q => (q.1, q.2.1, q.2.2.1,
              FlowAct.waitEvent :: FlowAct.callUncapture :: q.2.2.2))
        else
          some (c', false, rest, [FlowAct.waitEvent, FlowAct.callUncapture])
    else
      if c.calibImageCount < c.m_calibImageCountMax then
        (captureLoop cornerSubPix rest captureDone c).map
          (fun q => (q.1, q.2.1, q.2.2.1, FlowAct.waitEvent :: q.2.2.2))
      else
        some (c, false, rest, [FlowAct.waitEvent])

/-- What the flow thread does after the capture loop exits
(flow.cpp lines 286-323), up to and including the `flowWaitForEvent()`
call that precedes re-entering the outer welcome loop.  If fewer than the
maximum number of captures were collected (the operator cancelled): set
mask `{TOUCH}`, set state DONE, announce cancellation, await one event.
Otherwise: set mask `{NONE}`, set state CALIBRATING, run the calibration
computation synchronously, invoke the completion callback, reset the
session with `uncaptureAll()`, set mask `{TOUCH}`, set state DONE, await
one event. -/
def postCaptureLoop (c : Calibration) : Calibration × List FlowAct :=
  if c.calibImageCount < c.m_calibImageCountMax then
    (c, [FlowAct.setMask EVENT_TOUCH,
         FlowAct.setState FLOW_STATE.FLOW_STATE_DONE,
         FlowAct.waitEvent])
  else
    ((c.uncaptureAll).2,
     [FlowAct.setMask EVENT_NONE,
      FlowAct.setState FLOW_STATE.FLOW_STATE_CALIBRATING,
      FlowAct.callCalib,
      FlowAct.callCallback,
      FlowAct.callUncaptureAll,
      FlowAct.setMask EVENT_TOUCH,
      FlowAct.setState FLOW_STATE.FLOW_STATE_DONE,
      FlowAct.waitEvent])

/-!
## Operation sequences on a session

The three captured-set operations the flow controller drives
(`capture`, `uncapture`, `uncaptureAll`), for stating invariants over
arbitrary operation sequences.
-/

/-- One captured-set operation on a `Calibration` session. -/
inductive CalibOp where
  | capture (cornerSubPix : List Nat → List Point2f → List Point2f)
  | uncapture
  | uncaptureAll

/-- Apply one operation, keeping the updated session state. -/
def runOp (c : Calibration) : CalibOp → Calibration
  | CalibOp.capture f => (c.capture f).2
  | CalibOp.uncapture => (c.uncapture).2
  | CalibOp.uncaptureAll => (c.uncaptureAll).2

/-- Apply a sequence of operations. -/
def runOps (ops : List CalibOp) (c : Calibration) : Calibration :=
  ops.foldl runOp c

/-!
## Interleaving model of the result-lock critical sections

`m_cornerFinderResultLock` guards exactly two code regions that touch
`m_cornerFinderResultData` concurrently: the publishing copy in
`Calibration::frame` (lines 167-169: `m_cornerFinderResultData =
m_cornerFinderData` under the lock, whose copy-assignment writes the
found-flag, then the corner vector, then — via `init`/`copy` — the frame
pixels) and the reader pair `cornerFinderResultsLockAndFetch` /
`cornerFinderResultsUnlock` (lines 198-211: lock, read flag, read corners,
read frame, unlock).  Each region is broken into its individual shared
accesses and the two threads are interleaved by an arbitrary schedule;
`pthread_mutex_lock` blocks while the lock is held, modelled as a stutter
step.
-/

/-- The lock-guarded published fields of `m_cornerFinderResultData`
relevant to a reader (found-flag, corner sequence, frame pixels). -/
structure ResultSlot where
  cornerFoundAllFlag : Bool
  corners : List Point2f
  videoFrame : List Nat
deriving DecidableEq, Repr

/-- Thread identifiers: the publishing frame-pump thread and a concurrent
reader (e.g. the GL thread). -/
inductive Tid where
  | publisher
  | reader
deriving DecidableEq, Repr

/-- Shared state of the interleaved system: the mutex, the published slot,
each thread's program counter, and the reader's local copies. -/
structure LockedResultState where
  lockOwner : Option Tid
  slot : ResultSlot
  pubPc : Nat
  rdrPc : Nat
  readFlag : Bool
  readCorners : List Point2f
  readFrame : List Nat
deriving DecidableEq, Repr

/-- One step of the publishing path, writing payload `p` (the completed
worker data): acquire the lock (blocking), write the found-flag, write the
corner sequence, write the frame pixels, release the lock. -/
def pubStep (p : ResultSlot) (s : LockedResultState) : LockedResultState :=
  match s.pubPc with
  | 0 => if s.lockOwner = none then
           { s with lockOwner := some Tid.publisher, pubPc := 1 }
         else s
  | 1 => { s with
            slot := { s.slot with
              cornerFoundAllFlag := p.cornerFoundAllFlag }
            pubPc := 2 }
  | 2 => { s with slot := { s.slot with corners := p.corners }, pubPc := 3 }
  | 3 => { s with
            slot := { s.slot with videoFrame := p.videoFrame }
            pubPc := 4 }
  | 4 => { s with lockOwner := none, pubPc := 5 }
  | _ => s

/-- One step of the reader (`cornerFinderResultsLockAndFetch` ..
`cornerFinderResultsUnlock`): acquire the lock (blocking), read the
found-flag, read the corner sequence, read the frame pixels, release. -/
def rdrStep (s : LockedResultState) : LockedResultState :=
  match s.rdrPc with
  | 0 => if s.lockOwner = none then
           { s with lockOwner := some Tid.reader, rdrPc := 1 }
         else s
  | 1 => { s with readFlag := s.slot.cornerFoundAllFlag, rdrPc := 2 }
  | 2 => { s with readCorners := s.slot.corners, rdrPc := 3 }
  | 3 => { s with readFrame := s.slot.videoFrame, rdrPc := 4 }
  | 4 => { s with lockOwner := none, rdrPc := 5 }
  | _ => s

/-- One scheduled step. -/
def interleaveStep (p : ResultSlot) (s : LockedResultState) (t : Tid) :
    LockedResultState :=
  match t with
  | Tid.publisher => pubStep p s
  | Tid.reader => rdrStep s

/-- Run an arbitrary schedule. -/
def interleave (p : ResultSlot) (sched : List Tid)
    (s : LockedResultState) : LockedResultState :=
  sched.foldl (interleaveStep p) s

/-- Initial state: lock free, both threads at their first instruction, the
slot holding the previously published result `r0`. -/
def initialLockedState (r0 : ResultSlot) : LockedResultState :=
  { lockOwner := none
    slot := r0
    pubPc := 0
    rdrPc := 0
    readFlag := false
    readCorners := []
    readFrame := [] }

/-- Inductive invariant of the interleaved system: the lock enforces
mutual exclusion of the two critical sections, the slot's value is
determined by how far the publisher has progressed, and the reader's
copies agree with the slot while it is inside its critical section. -/
structure ResultInv (p r0 : ResultSlot) (s : LockedResultState) : Prop where
  pubPcLe : s.pubPc ≤ 5
  rdrPcLe : s.rdrPc ≤ 5
  pubLock : 1 ≤ s.pubPc → s.pubPc ≤ 4 → s.lockOwner = some Tid.publisher
  rdrLock : 1 ≤ s.rdrPc → s.rdrPc ≤ 4 → s.lockOwner = some Tid.reader
  slot0 : s.pubPc ≤ 1 → s.slot = r0
  slot2 : s.pubPc = 2 →
    s.slot = { r0 with cornerFoundAllFlag := p.cornerFoundAllFlag }
  slot3 : s.pubPc = 3 → s.slot = { p with videoFrame := r0.videoFrame }
  slot4 : 4 ≤ s.pubPc → s.slot = p
  readF : 2 ≤ s.rdrPc → s.rdrPc ≤ 4 →
    s.readFlag = s.slot.cornerFoundAllFlag
  readC : 3 ≤ s.rdrPc → s.rdrPc ≤ 4 → s.readCorners = s.slot.corners
  readV : s.rdrPc = 4 → s.readFrame = s.slot.videoFrame
  readDone : s.rdrPc = 5 →
    (s.readFlag = r0.cornerFoundAllFlag ∧ s.readCorners = r0.corners ∧
      s.readFrame = r0.videoFrame) ∨
    (s.readFlag = p.cornerFoundAllFlag ∧ s.readCorners = p.corners ∧
      s.readFrame = p.videoFrame)

/-!
## Sample states used by witnesses and counterexamples
-/

/-- A session mid-run: three captures to go, and the most recently
published detection result has all corners found. -/
def sampleFoundSession : Calibration :=
  { Calibration.init CalibrationPatternType.CHESSBOARD 10 (7, 5) 28 2 2 with
      m_corners := [[⟨3, 4⟩]]
      m_cornerFinderResultData :=
        { patternType := CalibrationPatternType.CHESSBOARD
          patternSize := (7, 5)
          videoWidth := 2
          videoHeight := 2
          videoFrame := [9, 9, 9, 9]
          cornerFoundAllFlag := true
          corners := [⟨5, 6⟩, ⟨7, 8⟩] } }

/-- A session configured for a single capture, with the published result's
found-flag set: one TOUCH completes the capture loop. -/
def sampleOneShotSession : Calibration :=
  { sampleFoundSession with m_calibImageCountMax := 1, m_corners := [] }

/-!
## Theorems
-/

/-- Any single operation leaves `m_calibImageCountMax` unchanged. -/
theorem runOp_max_eq (c : Calibration) (op : CalibOp) :
    (runOp c op).m_calibImageCountMax = c.m_calibImageCountMax := by
  cases op <;>
    simp only [runOp, Calibration.capture, Calibration.uncapture,
      Calibration.uncaptureAll] <;>
    split_ifs <;> rfl

/-- Any single operation keeps the captured count at most the maximum. -/
theorem runOp_count_le (c : Calibration) (op : CalibOp)
    (h : c.calibImageCount ≤ c.m_calibImageCountMax) :
    (runOp c op).calibImageCount ≤ c.m_calibImageCountMax := by
  simp only [Calibration.calibImageCount] at h ⊢
  cases op with
  | capture f =>
      simp only [runOp, Calibration.capture]
      split_ifs with h1 h2
      · exact h
      · simp only [List.length_append, List.length_cons, List.length_nil]
        omega
      · exact h
  | uncapture =>
      simp only [runOp, Calibration.uncapture]
      split_ifs with h1
      · exact h
      · simp only [List.length_dropLast]
        omega
  | uncaptureAll =>
      simp only [runOp, Calibration.uncaptureAll]
      split_ifs with h1
      · exact h
      · simp

/-- C1: for every session and every sequence of `capture` / `uncapture` /
`uncaptureAll` operations, the number of captured corner sets never
exceeds the configured maximum (`capturedCount() ≤ maxCount()` always
holds; a fresh session from `Calibration.init` has count `0` and so
satisfies the hypothesis); in particular `capture()` returns `false`
without appending when the count already equals the maximum. -/
theorem captured_count_le_max (ops : List CalibOp) (c : Calibration)
    (h : c.calibImageCount ≤ c.m_calibImageCountMax) :
    (runOps ops c).calibImageCount ≤ (runOps ops c).m_calibImageCountMax ∧
    ∀ (f : List Nat → List Point2f → List Point2f) (c' : Calibration),
      c'.calibImageCount = c'.m_calibImageCountMax →
      c'.capture f = (false, c') := by
  constructor
  · induction ops generalizing c with
    | nil => simpa [runOps] using h
    | cons op rest ih =>
        have h1 := runOp_count_le c op h
        have h2 := runOp_max_eq c op
        simp only [runOps, List.foldl_cons] at *
        exact ih (runOp c op) (by omega)
  · intro f c' hc
    simp only [Calibration.calibImageCount] at hc
    simp only [Calibration.capture]
    rw [if_pos (ge_of_eq hc)]

/-- Witness for C1 at a concrete session and operation sequence. -/
theorem captured_count_le_max_witness :
    (runOps [CalibOp.capture (fun _ cs => cs), CalibOp.uncapture]
        (Calibration.init CalibrationPatternType.CHESSBOARD 3 (7, 5) 28 2 2)).calibImageCount ≤
      (runOps [CalibOp.capture (fun _ cs => cs), CalibOp.uncapture]
        (Calibration.init CalibrationPatternType.CHESSBOARD 3 (7, 5) 28 2 2)).m_calibImageCountMax ∧
    ({ Calibration.init CalibrationPatternType.CHESSBOARD 1 (7, 5) 28 2 2 with
        m_corners := [[⟨0, 0⟩]] } : Calibration).capture (fun _ cs => cs) =
      (false,
       { Calibration.init CalibrationPatternType.CHESSBOARD 1 (7, 5) 28 2 2 with
          m_corners := [[⟨0, 0⟩]] }) :=
  ⟨(captured_count_le_max [CalibOp.capture (fun _ cs => cs), CalibOp.uncapture]
      (Calibration.init CalibrationPatternType.CHESSBOARD 3 (7, 5) 28 2 2)
      (by decide)).1,
   (captured_count_le_max []
      (Calibration.init CalibrationPatternType.CHESSBOARD 3 (7, 5) 28 2 2)
      (by decide)).2 (fun _ cs => cs) _ (by decide)⟩

/-- C2: `capture()` fails (returns `false`, leaves the session unchanged)
iff the captured-set count already equals the maximum or the most
recently published detection result's found-flag is clear; otherwise it
appends the (sub-pixel-refined, via the external routine `f`) feature
positions as a new captured set, the count grows by exactly one, and it
returns `true`. -/
theorem capture_success_and_failure
    (f : List Nat → List Point2f → List Point2f) (c : Calibration) :
    ((c.calibImageCount = c.m_calibImageCountMax ∨
        c.m_cornerFinderResultData.cornerFoundAllFlag = false) →
      c.capture f = (false, c)) ∧
    (c.calibImageCount < c.m_calibImageCountMax →
      c.m_cornerFinderResultData.cornerFoundAllFlag = true →
      (c.capture f).1 = true ∧
      (c.capture f).2.m_corners =
        c.m_corners ++ [f c.m_cornerFinderResultData.videoFrame
          c.m_cornerFinderResultData.corners] ∧
      (c.capture f).2.calibImageCount = c.calibImageCount + 1) := by
  simp only [Calibration.calibImageCount] at *
  constructor
  · rintro (hc | hflag)
    · simp only [Calibration.capture]
      rw [if_pos (ge_of_eq hc)]
    · simp only [Calibration.capture, hflag]
      split_ifs <;> simp_all
  · intro hlt hflag
    simp only [Calibration.capture, hflag]
    rw [if_neg (by omega)]
    simp

/-- Witness for C2: a successful capture on a concrete session. -/
theorem capture_success_and_failure_witness :
    (sampleFoundSession.capture (fun _ cs => cs)).1 = true ∧
    (sampleFoundSession.capture (fun _ cs => cs)).2.m_corners =
      sampleFoundSession.m_corners ++
        [(fun _ cs => cs) sampleFoundSession.m_cornerFinderResultData.videoFrame
          sampleFoundSession.m_cornerFinderResultData.corners] ∧
    (sampleFoundSession.capture (fun _ cs => cs)).2.calibImageCount =
      sampleFoundSession.calibImageCount + 1 :=
  (capture_success_and_failure (fun _ cs => cs) sampleFoundSession).2
    (by decide) (by decide)

/-- C8: `uncapture()` on an empty captured-set collection returns `false`
and leaves the session unchanged; on a non-empty collection it removes
exactly the most recently appended element, the count drops by exactly
one, and it returns `true`. -/
theorem uncapture_spec (c : Calibration) :
    (c.m_corners = [] → c.uncapture = (false, c)) ∧
    (∀ (pre : List (List Point2f)) (x : List Point2f),
      c.m_corners = pre ++ [x] →
      c.uncapture = (true, { c with m_corners := pre })) ∧
    (c.m_corners ≠ [] →
      (c.uncapture).1 = true ∧
      (c.uncapture).2.calibImageCount + 1 = c.calibImageCount) := by
  refine ⟨?_, ?_, ?_⟩
  · intro h
    simp [Calibration.uncapture, h]
  · intro pre x h
    simp only [Calibration.uncapture, h]
    rw [if_neg (by simp)]
    simp
  · intro h
    have hpos : 0 < c.m_corners.length := List.length_pos.mpr h
    simp only [Calibration.uncapture, Calibration.calibImageCount]
    rw [if_neg (by omega)]
    refine ⟨rfl, ?_⟩
    simp only [List.length_dropLast]
    omega

/-- Witness for C8: the empty and the singleton collection. -/
theorem uncapture_spec_witness :
    (Calibration.init CalibrationPatternType.CHESSBOARD 3 (7, 5) 28 2 2).uncapture =
      (false, Calibration.init CalibrationPatternType.CHESSBOARD 3 (7, 5) 28 2 2) ∧
    sampleFoundSession.uncapture =
      (true, { sampleFoundSession with m_corners := [] }) :=
  ⟨(uncapture_spec _).1 rfl,
   (uncapture_spec sampleFoundSession).2.1 [] [⟨3, 4⟩] rfl⟩

/-- C10: `frame()` returns `true` for every input — when the worker is
still busy the incoming frame is dropped and the call is a no-op, and
when the video source has no newer frame the submission half of the cycle
is a no-op; no error is ever reported to the caller. -/
theorem frame_always_true (newFrame : Option (List Nat)) (c : Calibration) :
    (c.frame newFrame).1 = true ∧
    (c.workerPhase = WorkerPhase.busy → c.frame newFrame = (true, c)) ∧
    (newFrame = none →
      (c.frame newFrame).2.m_cornerFinderData = c.m_cornerFinderData ∧
      (c.frame newFrame).2.m_corners = c.m_corners) := by
  refine ⟨?_, ?_, ?_⟩
  · rfl
  · intro h
    simp [Calibration.frame, h]
  · rintro rfl
    simp only [Calibration.frame]
    split_ifs <;> simp

/-- Witness for C10: a busy worker drops the frame; an empty source is a
no-op cycle. -/
theorem frame_always_true_witness :
    ({ Calibration.init CalibrationPatternType.CHESSBOARD 3 (7, 5) 28 2 2 with
        workerPhase := WorkerPhase.busy } : Calibration).frame (some [1, 2, 3, 4]) =
      (true,
       { Calibration.init CalibrationPatternType.CHESSBOARD 3 (7, 5) 28 2 2 with
          workerPhase := WorkerPhase.busy }) ∧
    ((Calibration.init CalibrationPatternType.CHESSBOARD 3 (7, 5) 28 2 2).frame
        none).2.m_cornerFinderData =
      (Calibration.init CalibrationPatternType.CHESSBOARD 3 (7, 5) 28 2 2).m_cornerFinderData :=
  ⟨(frame_always_true (some [1, 2, 3, 4]) _).2.1 rfl,
   ((frame_always_true none
      (Calibration.init CalibrationPatternType.CHESSBOARD 3 (7, 5) 28 2 2)).2.2 rfl).1⟩

/-- C7 (amended): the published result is superseded wholesale by the copy
made when `frame()` collects a completed detection job, and a failed
`capture()` leaves it untouched; but a *successful* `capture()` mutates
the published result's feature-position sequence in place, replacing it
with the sub-pixel-refined positions (the found-flag and frame pixels are
left unchanged: only the `corners` field is overwritten). -/
theorem published_result_mutation_spec (newFrame : Option (List Nat))
    (f : List Nat → List Point2f → List Point2f) (c : Calibration) :
    (c.workerPhase = WorkerPhase.done →
      (c.frame newFrame).2.m_cornerFinderResultData = c.m_cornerFinderData) ∧
    ((c.calibImageCount ≥ c.m_calibImageCountMax ∨
        c.m_cornerFinderResultData.cornerFoundAllFlag = false) →
      (c.capture f).2.m_cornerFinderResultData = c.m_cornerFinderResultData) ∧
    (c.calibImageCount < c.m_calibImageCountMax →
      c.m_cornerFinderResultData.cornerFoundAllFlag = true →
      (c.capture f).2.m_cornerFinderResultData =
        { c.m_cornerFinderResultData with
            corners := f c.m_cornerFinderResultData.videoFrame
              c.m_cornerFinderResultData.corners }) := by
  simp only [Calibration.calibImageCount]
  refine ⟨?_, ?_, ?_⟩
  · intro h
    simp only [Calibration.frame, h]
    split_ifs <;> cases newFrame <;> simp
  · rintro (hc | hflag)
    · simp only [Calibration.capture]
      rw [if_pos hc]
    · simp only [Calibration.capture, hflag]
      split_ifs <;> simp_all
  · intro hlt hflag
    simp only [Calibration.capture, hflag]
    rw [if_neg (by omega)]
    simp

/-- Witness for C7's amended statement: a successful capture overwrites
exactly the corner sequence of the published result. -/
theorem published_result_mutation_spec_witness :
    (sampleFoundSession.capture (fun _ _ => [⟨1, 1⟩])).2.m_cornerFinderResultData =
      { sampleFoundSession.m_cornerFinderResultData with
          corners := (fun (_ : List Nat) (_ : List Point2f) => [(⟨1, 1⟩ : Point2f)])
            sampleFoundSession.m_cornerFinderResultData.videoFrame
            sampleFoundSession.m_cornerFinderResultData.corners } :=
  (published_result_mutation_spec none (fun _ _ => [⟨1, 1⟩])
    sampleFoundSession).2.2 (by decide) (by decide)

/-- Counterexample to C7 as stated: `capture()` does *not* leave the
published result unchanged — on a concrete session whose published result
has the found-flag set, a successful capture changes the published
feature-position sequence in place (the source passes
`m_cornerFinderResultData.corners` to `cv::cornerSubPix`, which refines it
in place, before appending it). -/
theorem capture_mutates_published_corners :
    (sampleFoundSession.capture (fun _ _ => [⟨1, 1⟩])).1 = true ∧
    (sampleFoundSession.capture
        (fun _ _ => [⟨1, 1⟩])).2.m_cornerFinderResultData.corners ≠
      sampleFoundSession.m_cornerFinderResultData.corners := by
  decide

/-- C6 (amended): pattern-type validation happens at job time, not at
construction: `Calibration.init` accepts every pattern type without any
check (the session records the requested type verbatim), a detection job
on a `CHESSBOARD` clocks the external detector's results into the worker
data, and a detection job on any other pattern type hits the worker's
`default:` arm and fatally aborts the process. -/
theorem pattern_type_checked_at_job_time (pt : CalibrationPatternType)
    (n : Nat) (ps : Nat × Nat) (sq w hgt : Nat)
    (find : List Nat → Bool × List Point2f)
    (d : CalibrationCornerFinderData) :
    (Calibration.init pt n ps sq w hgt).m_patternType = pt ∧
    (Calibration.init pt n ps sq w hgt).m_cornerFinderData.patternType = pt ∧
    (d.patternType = CalibrationPatternType.CHESSBOARD →
      cornerFinderRun find d =
        some { d with cornerFoundAllFlag := (find d.videoFrame).1,
                      corners := (find d.videoFrame).2 }) ∧
    (d.patternType ≠ CalibrationPatternType.CHESSBOARD →
      cornerFinderRun find d = none) := by
  refine ⟨rfl, rfl, ?_, ?_⟩ <;>
    · intro h
      rcases d with ⟨dpt, dps, dw, dh, dvf, dflag, dcs⟩
      cases dpt <;> simp_all [cornerFinderRun]

/-- Witness for C6's amended statement at concrete inputs. -/
theorem pattern_type_checked_at_job_time_witness :
    cornerFinderRun (fun _ => (true, [⟨2, 3⟩]))
      (Calibration.init CalibrationPatternType.CHESSBOARD 3 (7, 5) 28 2 2).m_cornerFinderData =
      some { (Calibration.init CalibrationPatternType.CHESSBOARD 3 (7, 5) 28 2 2).m_cornerFinderData with
              cornerFoundAllFlag := true, corners := [⟨2, 3⟩] } :=
  by
    have h := (pattern_type_checked_at_job_time CalibrationPatternType.CHESSBOARD
      3 (7, 5) 28 2 2 (fun _ => (true, [⟨2, 3⟩]))
      (Calibration.init CalibrationPatternType.CHESSBOARD 3 (7, 5) 28 2 2).m_cornerFinderData).2.2.1
      (by decide)
    simpa using h

/-- Counterexample to C6 as stated: constructing a `Calibration` with the
unsupported `ASYMMETRIC_CIRCLES_GRID` pattern type does *not* fail — the
constructor performs no validation and yields a normal session carrying
that type — and a detection job with the unsupported type *is* run: the
first `frame()` cycle submits it to the worker (which goes busy), and
running the job aborts the process (`none`). -/
theorem unsupported_pattern_construction_succeeds :
    (Calibration.init CalibrationPatternType.ASYMMETRIC_CIRCLES_GRID
        10 (4, 11) 20 2 2).m_patternType =
      CalibrationPatternType.ASYMMETRIC_CIRCLES_GRID ∧
    ((Calibration.init CalibrationPatternType.ASYMMETRIC_CIRCLES_GRID
        10 (4, 11) 20 2 2).frame (some [1, 2, 3, 4])).2.workerPhase =
      WorkerPhase.busy ∧
    ((Calibration.init CalibrationPatternType.ASYMMETRIC_CIRCLES_GRID
        10 (4, 11) 20 2 2).frame
        (some [1, 2, 3, 4])).2.m_cornerFinderData.patternType =
      CalibrationPatternType.ASYMMETRIC_CIRCLES_GRID ∧
    cornerFinderRun (fun _ => (false, []))
      ((Calibration.init CalibrationPatternType.ASYMMETRIC_CIRCLES_GRID
          10 (4, 11) 20 2 2).frame (some [1, 2, 3, 4])).2.m_cornerFinderData =
      none := by
  decide

/-- Posting a burst of events leaves the mask unchanged and the pending
slot holding the most recently posted in-mask event (or the previous
pending value if none was in-mask). -/
theorem postEvents_eq (events : List EVENT_t) (s : FlowEventState) :
    postEvents events s =
      { s with gEvent := lastInMask s.gEventMask s.gEvent events } := by
  induction events generalizing s with
  | nil => rfl
  | cons e es ih =>
      show postEvents es ((flowHandleEvent e s).2) = _
      by_cases h : e.inter s.gEventMask = EVENT_NONE
      · rw [show (flowHandleEvent e s).2 = s by simp [flowHandleEvent, h]]
        rw [ih s]
        simp [lastInMask, h]
      · rw [show (flowHandleEvent e s).2 = { s with gEvent := e } by
          simp [flowHandleEvent, h]]
        rw [ih]
        simp [lastInMask, h]

/-- C5: the event delivery is a one-deep mailbox.  An event outside the
active mask is discarded (`flowHandleEvent` stores nothing and reports
`false`); an in-mask event overwrites any still-pending event; and for any
burst of events posted before the consumer wakes (the pending slot being
empty beforehand), the consumer observes exactly one event — the most
recently posted in-mask one — and the slot is empty again afterwards, so
no second event can be observed. -/
theorem event_mailbox_collapse (events : List EVENT_t) (s : FlowEventState)
    (hempty : s.gEvent = EVENT_NONE) :
    (∀ e : EVENT_t, e.inter s.gEventMask = EVENT_NONE →
      flowHandleEvent e s = (false, s)) ∧
    (∀ e : EVENT_t, e.inter s.gEventMask ≠ EVENT_NONE →
      flowHandleEvent e s = (true, { s with gEvent := e })) ∧
    (postEvents events s).gEventMask = s.gEventMask ∧
    (flowWaitForEvent (postEvents events s)).1 =
      lastInMask s.gEventMask EVENT_NONE events ∧
    (flowWaitForEvent (postEvents events s)).2.gEvent = EVENT_NONE := by
  refine ⟨?_, ?_, ?_, ?_, ?_⟩
  · intro e h
    simp [flowHandleEvent, h]
  · intro e h
    simp [flowHandleEvent, h]
  · rw [postEvents_eq]
  · rw [postEvents_eq]
    simp only [flowWaitForEvent]
    rw [hempty]
  · simp [flowWaitForEvent]

/-- Witness for C5: in the CAPTURING mask `{TOUCH, BACK_BUTTON}`, posting
TOUCH, TOUCH, BACK_BUTTON in rapid succession makes the consumer observe
exactly the last one, and a second wait would find the slot empty. -/
theorem event_mailbox_collapse_witness :
    (flowWaitForEvent (postEvents [EVENT_TOUCH, EVENT_TOUCH, EVENT_BACK_BUTTON]
        ⟨EVENT_NONE, EVENT_t.union EVENT_TOUCH EVENT_BACK_BUTTON⟩)).1 =
      lastInMask (EVENT_t.union EVENT_TOUCH EVENT_BACK_BUTTON) EVENT_NONE
        [EVENT_TOUCH, EVENT_TOUCH, EVENT_BACK_BUTTON] ∧
    (flowWaitForEvent (postEvents [EVENT_TOUCH, EVENT_TOUCH, EVENT_BACK_BUTTON]
        ⟨EVENT_NONE, EVENT_t.union EVENT_TOUCH EVENT_BACK_BUTTON⟩)).2.gEvent =
      EVENT_NONE :=
  ⟨(event_mailbox_collapse [EVENT_TOUCH, EVENT_TOUCH, EVENT_BACK_BUTTON]
      ⟨EVENT_NONE, EVENT_t.union EVENT_TOUCH EVENT_BACK_BUTTON⟩ rfl).2.2.2.1,
   (event_mailbox_collapse [EVENT_TOUCH, EVENT_TOUCH, EVENT_BACK_BUTTON]
      ⟨EVENT_NONE, EVENT_t.union EVENT_TOUCH EVENT_BACK_BUTTON⟩ rfl).2.2.2.2⟩

/-- Lemma: `uncaptureAll` empties the collection and touches nothing else. -/
theorem uncaptureAll_clears (c : Calibration) :
    (c.uncaptureAll).2.m_corners = [] ∧
    (c.uncaptureAll).2.m_calibImageCountMax = c.m_calibImageCountMax := by
  simp only [Calibration.uncaptureAll]
  split_ifs with h
  · have hz : c.m_corners.length = 0 := by omega
    exact ⟨List.eq_nil_of_length_eq_zero hz, rfl⟩
  · simp

/-- Lemma: `uncapture` never increases the count and keeps the maximum. -/
theorem uncapture_le (c : Calibration) :
    (c.uncapture).2.calibImageCount ≤ c.calibImageCount ∧
    (c.uncapture).2.m_calibImageCountMax = c.m_calibImageCountMax := by
  simp only [Calibration.uncapture]
  split_ifs with h
  · exact ⟨le_rfl, rfl⟩
  · refine ⟨?_, rfl⟩
    simp only [Calibration.calibImageCount, List.length_dropLast]
    omega

/-- Lemma: `capture` keeps the count at most the maximum and keeps the maximum. -/
theorem capture_le (f : List Nat → List Point2f → List Point2f)
    (c : Calibration) (h : c.calibImageCount ≤ c.m_calibImageCountMax) :
    (c.capture f).2.calibImageCount ≤ (c.capture f).2.m_calibImageCountMax ∧
    (c.capture f).2.m_calibImageCountMax = c.m_calibImageCountMax := by
  simp only [Calibration.calibImageCount] at h
  simp only [Calibration.capture]
  split_ifs with h1 h2
  · exact ⟨h, rfl⟩
  · refine ⟨?_, rfl⟩
    simp only [Calibration.calibImageCount, List.length_append,
      List.length_cons, List.length_nil]
    omega
  · exact ⟨h, rfl⟩

/-- When the capture loop exits other than through `break`, the captured
count has reached the configured maximum. -/
theorem captureLoop_no_break_max
    (sub : List Nat → List Point2f → List Point2f) (evs : List EVENT_t) :
    ∀ (flag : Bool) (c0 cf : Calibration) (rem : List EVENT_t)
      (tr : List FlowAct),
      c0.calibImageCount ≤ c0.m_calibImageCountMax →
      captureLoop sub evs flag c0 = some (cf, false, rem, tr) →
      cf.calibImageCount = cf.m_calibImageCountMax := by
  induction evs with
  | nil =>
      intro flag c0 cf rem tr _ hrun
      simp [captureLoop] at hrun
  | cons e rest ih =>
      intro flag c0 cf rem tr hinv hrun
      simp only [captureLoop] at hrun
      split_ifs at hrun with h1 h2 h3 h4 h5 h6
      · -- TOUCH, loop continues
        rcases Option.map_eq_some'.mp hrun with ⟨q, hq, hmap⟩
        obtain ⟨qc, qb, qr, qt⟩ := q
        simp only [Prod.mk.injEq] at hmap
        obtain ⟨rfl, hb, -, -⟩ := hmap
        exact ih _ _ _ _ _ (capture_le sub c0 hinv).1 (hb ▸ hq)
      · -- TOUCH, loop exits through the condition
        simp only [Option.some.injEq, Prod.mk.injEq] at hrun
        obtain ⟨rfl, -, -, -⟩ := hrun
        have hle := capture_le sub c0 hinv
        omega
      · -- BACK_BUTTON with no capture since the last press: break
        simp only [Option.some.injEq, Prod.mk.injEq] at hrun
        obtain ⟨-, hfalse, -, -⟩ := hrun
        exact absurd hfalse.symm (by simp)
      · -- BACK_BUTTON after a capture, loop continues
        rcases Option.map_eq_some'.mp hrun with ⟨q, hq, hmap⟩
        obtain ⟨qc, qb, qr, qt⟩ := q
        simp only [Prod.mk.injEq] at hmap
        obtain ⟨rfl, hb, -, -⟩ := hmap
        have hle := uncapture_le c0
        exact ih _ _ _ _ _ (by omega) (hb ▸ hq)
      · -- BACK_BUTTON after a capture, loop exits through the condition
        simp only [Option.some.injEq, Prod.mk.injEq] at hrun
        obtain ⟨rfl, -, -, -⟩ := hrun
        have hle := uncapture_le c0
        omega
      · -- other event, loop continues
        rcases Option.map_eq_some'.mp hrun with ⟨q, hq, hmap⟩
        obtain ⟨qc, qb, qr, qt⟩ := q
        simp only [Prod.mk.injEq] at hmap
        obtain ⟨rfl, hb, -, -⟩ := hmap
        exact ih _ _ _ _ _ hinv (hb ▸ hq)
      · -- other event, loop exits through the condition
        simp only [Option.some.injEq, Prod.mk.injEq] at hrun
        obtain ⟨rfl, -, -, -⟩ := hrun
        omega

/-- C3: when the capture loop ends because the captured count reached the
configured maximum (exit without `break`), the controller performs, in
this order: set event mask NONE, set state CALIBRATING, run the
calibration computation synchronously, invoke the completion callback
(exactly once), reset the session via `uncaptureAll()` — so the captured
count is `0` — then set event mask TOUCH, set state DONE, and await one
more event before re-entering the welcome loop. -/
theorem completion_sequence_after_full_capture
    (sub : List Nat → List Point2f → List Point2f)
    (evs : List EVENT_t) (flag : Bool) (c0 c : Calibration)
    (rem : List EVENT_t) (tr : List FlowAct)
    (hinv : c0.calibImageCount ≤ c0.m_calibImageCountMax)
    (hrun : captureLoop sub evs flag c0 = some (c, false, rem, tr)) :
    c.calibImageCount = c.m_calibImageCountMax ∧
    postCaptureLoop c =
      ((c.uncaptureAll).2,
       [FlowAct.setMask EVENT_NONE,
        FlowAct.setState FLOW_STATE.FLOW_STATE_CALIBRATING,
        FlowAct.callCalib, FlowAct.callCallback, FlowAct.callUncaptureAll,
        FlowAct.setMask EVENT_TOUCH,
        FlowAct.setState FLOW_STATE.FLOW_STATE_DONE,
        FlowAct.waitEvent]) ∧
    (postCaptureLoop c).1.calibImageCount = 0 ∧
    (postCaptureLoop c).2.count FlowAct.callCallback = 1 := by
  have hmax := captureLoop_no_break_max sub evs flag c0 c rem tr hinv hrun
  have hpost : postCaptureLoop c =
      ((c.uncaptureAll).2,
       [FlowAct.setMask EVENT_NONE,
        FlowAct.setState FLOW_STATE.FLOW_STATE_CALIBRATING,
        FlowAct.callCalib, FlowAct.callCallback, FlowAct.callUncaptureAll,
        FlowAct.setMask EVENT_TOUCH,
        FlowAct.setState FLOW_STATE.FLOW_STATE_DONE,
        FlowAct.waitEvent]) := by
    simp only [postCaptureLoop]
    rw [if_neg (by omega)]
  refine ⟨hmax, hpost, ?_, ?_⟩
  · rw [hpost]
    simp only [Calibration.calibImageCount, (uncaptureAll_clears c).1,
      List.length_nil]
  · rw [hpost]
    rfl

/-- Witness for C3: a one-capture session driven to completion by a single
TOUCH. -/
theorem completion_sequence_after_full_capture_witness :
    (postCaptureLoop ((sampleOneShotSession.capture
        (fun _ cs => cs)).2)).1.calibImageCount = 0 ∧
    (postCaptureLoop ((sampleOneShotSession.capture
        (fun _ cs => cs)).2)).2.count FlowAct.callCallback = 1 :=
  ⟨(completion_sequence_after_full_capture (fun _ cs => cs) [EVENT_TOUCH]
      false sampleOneShotSession
      ((sampleOneShotSession.capture (fun _ cs => cs)).2) []
      [FlowAct.waitEvent, FlowAct.callCapture true]
      (by decide) (by decide)).2.2.1,
   (completion_sequence_after_full_capture (fun _ cs => cs) [EVENT_TOUCH]
      false sampleOneShotSession
      ((sampleOneShotSession.capture (fun _ cs => cs)).2) []
      [FlowAct.waitEvent, FlowAct.callCapture true]
      (by decide) (by decide)).2.2.2⟩

/-- C4 (amended): in state CAPTURING, a BACK_BUTTON received when no
capture has succeeded since the last back-press calls `uncaptureAll()`
and breaks out of the capture loop into the cancelled branch — no
completion callback is invoked, the controller sets event mask `{TOUCH}`,
sets state DONE, and awaits one more event before re-entering the welcome
loop (the flow state is never set to WELCOME); a BACK_BUTTON received
after at least one successful capture since the last back-press calls
`uncapture()` (undoing exactly one, the count drops by one when the
collection is non-empty) and the loop continues — the controller remains
in CAPTURING, no state change being emitted. -/
theorem back_button_undo_or_cancel
    (sub : List Nat → List Point2f → List Point2f)
    (rest : List EVENT_t) (c : Calibration)
    (hmax : 0 < c.m_calibImageCountMax)
    (hinv : c.calibImageCount ≤ c.m_calibImageCountMax) :
    (captureLoop sub (EVENT_BACK_BUTTON :: rest) false c =
      some ((c.uncaptureAll).2, true, rest,
        [FlowAct.waitEvent, FlowAct.callUncaptureAll])) ∧
    (postCaptureLoop (c.uncaptureAll).2 =
      ((c.uncaptureAll).2,
       [FlowAct.setMask EVENT_TOUCH,
        FlowAct.setState FLOW_STATE.FLOW_STATE_DONE,
        FlowAct.waitEvent])) ∧
    FlowAct.callCallback ∉
      [FlowAct.waitEvent, FlowAct.callUncaptureAll] ++
        (postCaptureLoop (c.uncaptureAll).2).2 ∧
    FlowAct.setState FLOW_STATE.FLOW_STATE_WELCOME ∉
      [FlowAct.waitEvent, FlowAct.callUncaptureAll] ++
        (postCaptureLoop (c.uncaptureAll).2).2 ∧
    (captureLoop sub (EVENT_BACK_BUTTON :: rest) true c =
      (captureLoop sub rest false (c.uncapture).2).map
        (fun q => (q.1, q.2.1, q.2.2.1,
          FlowAct.waitEvent :: FlowAct.callUncapture :: q.2.2.2))) ∧
    (c.m_corners ≠ [] →
      (c.uncapture).2.calibImageCount + 1 = c.calibImageCount) := by
  have hcancel : postCaptureLoop (c.uncaptureAll).2 =
      ((c.uncaptureAll).2,
       [FlowAct.setMask EVENT_TOUCH,
        FlowAct.setState FLOW_STATE.FLOW_STATE_DONE,
        FlowAct.waitEvent]) := by
    have hclears := uncaptureAll_clears c
    simp only [postCaptureLoop]
    rw [if_pos]
    simp only [Calibration.calibImageCount, hclears.1, hclears.2,
      List.length_nil]
    omega
  refine ⟨?_, hcancel, ?_, ?_, ?_, ?_⟩
  · simp [captureLoop, EVENT_TOUCH, EVENT_BACK_BUTTON]
  · rw [hcancel]
    show FlowAct.callCallback ∉
      [FlowAct.waitEvent, FlowAct.callUncaptureAll] ++
        [FlowAct.setMask EVENT_TOUCH,
         FlowAct.setState FLOW_STATE.FLOW_STATE_DONE, FlowAct.waitEvent]
    decide
  · rw [hcancel]
    show FlowAct.setState FLOW_STATE.FLOW_STATE_WELCOME ∉
      [FlowAct.waitEvent, FlowAct.callUncaptureAll] ++
        [FlowAct.setMask EVENT_TOUCH,
         FlowAct.setState FLOW_STATE.FLOW_STATE_DONE, FlowAct.waitEvent]
    decide
  · have hlt : (c.uncapture).2.calibImageCount <
        (c.uncapture).2.m_calibImageCountMax := by
      simp only [Calibration.calibImageCount] at hinv
      simp only [Calibration.uncapture]
      split_ifs with h
      · simp only [Calibration.calibImageCount]
        omega
      · simp only [Calibration.calibImageCount, List.length_dropLast]
        omega
    simp [captureLoop, hlt, EVENT_TOUCH, EVENT_BACK_BUTTON]
  · intro h
    have hpos : 0 < c.m_corners.length := List.length_pos.mpr h
    simp only [Calibration.uncapture]
    rw [if_neg (by omega)]
    simp only [Calibration.calibImageCount, List.length_dropLast]
    omega

/-- Witness for C4's amended statement at a concrete session (three to
capture, one already captured, found-flag set). -/
theorem back_button_undo_or_cancel_witness :
    (captureLoop (fun _ cs => cs) [EVENT_BACK_BUTTON] false sampleFoundSession =
      some ((sampleFoundSession.uncaptureAll).2, true, [],
        [FlowAct.waitEvent, FlowAct.callUncaptureAll])) ∧
    (sampleFoundSession.m_corners ≠ [] →
      (sampleFoundSession.uncapture).2.calibImageCount + 1 =
        sampleFoundSession.calibImageCount) :=
  ⟨(back_button_undo_or_cancel (fun _ cs => cs) [] sampleFoundSession
      (by decide) (by decide)).1,
   (back_button_undo_or_cancel (fun _ cs => cs) [] sampleFoundSession
      (by decide) (by decide)).2.2.2.2.2⟩

/-- Counterexample to C4 as stated: on a fresh concrete session (maximum
3, nothing captured), a BACK_BUTTON in CAPTURING does call
`uncaptureAll()` and break out of the capture loop with no callback, but
the return to the welcome loop is not immediate and the state is not set
to WELCOME: the controller emits `setState DONE` and then blocks in one
more `flowWaitForEvent` (a TOUCH must be consumed in state DONE first),
and no `setState WELCOME` action occurs anywhere on the path. -/
theorem back_button_no_immediate_welcome :
    captureLoop (fun _ cs => cs) [EVENT_BACK_BUTTON] false
        (Calibration.init CalibrationPatternType.CHESSBOARD 3 (7, 5) 28 2 2) =
      some (Calibration.init CalibrationPatternType.CHESSBOARD 3 (7, 5) 28 2 2,
        true, [], [FlowAct.waitEvent, FlowAct.callUncaptureAll]) ∧
    postCaptureLoop
        (Calibration.init CalibrationPatternType.CHESSBOARD 3 (7, 5) 28 2 2) =
      (Calibration.init CalibrationPatternType.CHESSBOARD 3 (7, 5) 28 2 2,
       [FlowAct.setMask EVENT_TOUCH,
        FlowAct.setState FLOW_STATE.FLOW_STATE_DONE,
        FlowAct.waitEvent]) ∧
    FlowAct.setState FLOW_STATE.FLOW_STATE_WELCOME ∉
      ([FlowAct.waitEvent, FlowAct.callUncaptureAll] ++
       [FlowAct.setMask EVENT_TOUCH,
        FlowAct.setState FLOW_STATE.FLOW_STATE_DONE,
        FlowAct.waitEvent]) ∧
    FlowAct.waitEvent ∈
      [FlowAct.setMask EVENT_TOUCH,
       FlowAct.setState FLOW_STATE.FLOW_STATE_DONE,
       FlowAct.waitEvent] := by
  decide

/-- The invariant holds in the initial state. -/
theorem resultInv_init (p r0 : ResultSlot) :
    ResultInv p r0 (initialLockedState r0) := by
  refine ⟨?_, ?_, ?_, ?_, ?_, ?_, ?_, ?_, ?_, ?_, ?_, ?_⟩ <;>
    simp [initialLockedState]

/-- One publisher step preserves the invariant. -/
theorem pubStep_inv (p r0 : ResultSlot) (s : LockedResultState)
    (h : ResultInv p r0 s) : ResultInv p r0 (pubStep p s) := by
  obtain ⟨h1, h2, h3, h4, h5, h6, h7, h8, h9, h10, h11, h12⟩ := h
  rcases s with ⟨owner, slot, ppc, rpc, rf, rc, rv⟩
  simp only at h1 h2 h3 h4 h5 h6 h7 h8 h9 h10 h11 h12
  interval_cases ppc <;> simp only [pubStep]
  · -- acquire attempt
    split_ifs with ho
    · have hr : ¬ (1 ≤ rpc ∧ rpc ≤ 4) := by
        rintro ⟨ha, hb⟩
        rw [h4 ha hb] at ho
        simp at ho
      refine ⟨?_, ?_, ?_, ?_, ?_, ?_, ?_, ?_, ?_, ?_, ?_, ?_⟩ <;>
        try simp only []
      all_goals first
        | omega
        | (intros; trivial)
        | (intros; omega)
        | exact h12
        | (intro _ _; rfl)
        | (intro ha hb; exact (hr ⟨by omega, hb⟩).elim)
        | (intro ha; exact (hr ⟨by omega, by omega⟩).elim)
        | (intro _; exact h5 (by omega))
    · exact ⟨h1, h2, h3, h4, h5, h6, h7, h8, h9, h10, h11, h12⟩
  · -- write the found-flag
    have hown := h3 (by omega) (by omega)
    have hr : ¬ (1 ≤ rpc ∧ rpc ≤ 4) := by
      rintro ⟨ha, hb⟩
      rw [h4 ha hb] at hown
      simp at hown
    refine ⟨?_, ?_, ?_, ?_, ?_, ?_, ?_, ?_, ?_, ?_, ?_, ?_⟩ <;>
      try simp only []
    all_goals first
      | omega
      | (intros; trivial)
      | (intros; omega)
      | exact h12
      | (intro _ _; exact hown)
      | (intro ha hb; exact (hr ⟨by omega, hb⟩).elim)
      | (intro ha; exact (hr ⟨by omega, by omega⟩).elim)
      | (intro _; rw [h5 (by omega)])
  · -- write the corner sequence
    have hown := h3 (by omega) (by omega)
    have hr : ¬ (1 ≤ rpc ∧ rpc ≤ 4) := by
      rintro ⟨ha, hb⟩
      rw [h4 ha hb] at hown
      simp at hown
    refine ⟨?_, ?_, ?_, ?_, ?_, ?_, ?_, ?_, ?_, ?_, ?_, ?_⟩ <;>
      try simp only []
    all_goals first
      | omega
      | (intros; trivial)
      | (intros; omega)
      | exact h12
      | (intro _ _; exact hown)
      | (intro ha hb; exact (hr ⟨by omega, hb⟩).elim)
      | (intro ha; exact (hr ⟨by omega, by omega⟩).elim)
      | (intro _; rw [h6 rfl])
  · -- write the frame pixels
    have hown := h3 (by omega) (by omega)
    have hr : ¬ (1 ≤ rpc ∧ rpc ≤ 4) := by
      rintro ⟨ha, hb⟩
      rw [h4 ha hb] at hown
      simp at hown
    refine ⟨?_, ?_, ?_, ?_, ?_, ?_, ?_, ?_, ?_, ?_, ?_, ?_⟩ <;>
      try simp only []
    all_goals first
      | omega
      | (intros; trivial)
      | (intros; omega)
      | exact h12
      | (intro _ _; exact hown)
      | (intro ha hb; exact (hr ⟨by omega, hb⟩).elim)
      | (intro ha; exact (hr ⟨by omega, by omega⟩).elim)
      | (intro _; rw [h7 rfl])
  · -- release
    have hown := h3 (by omega) (by omega)
    have hr : ¬ (1 ≤ rpc ∧ rpc ≤ 4) := by
      rintro ⟨ha, hb⟩
      rw [h4 ha hb] at hown
      simp at hown
    refine ⟨?_, ?_, ?_, ?_, ?_, ?_, ?_, ?_, ?_, ?_, ?_, ?_⟩ <;>
      try simp only []
    all_goals first
      | omega
      | (intros; trivial)
      | (intros; omega)
      | exact h12
      | (intro ha hb; exact (hr ⟨by omega, hb⟩).elim)
      | (intro ha; exact (hr ⟨by omega, by omega⟩).elim)
      | (intro _; exact h8 (by omega))
  · -- already finished
    exact ⟨h1, h2, h3, h4, h5, h6, h7, h8, h9, h10, h11, h12⟩

/-- One reader step preserves the invariant. -/
theorem rdrStep_inv (p r0 : ResultSlot) (s : LockedResultState)
    (h : ResultInv p r0 s) : ResultInv p r0 (rdrStep s) := by
  obtain ⟨h1, h2, h3, h4, h5, h6, h7, h8, h9, h10, h11, h12⟩ := h
  rcases s with ⟨owner, slot, ppc, rpc, rf, rc, rv⟩
  simp only at h1 h2 h3 h4 h5 h6 h7 h8 h9 h10 h11 h12
  interval_cases rpc <;> simp only [rdrStep]
  · -- acquire attempt
    split_ifs with ho
    · have hp : ¬ (1 ≤ ppc ∧ ppc ≤ 4) := by
        rintro ⟨ha, hb⟩
        rw [h3 ha hb] at ho
        simp at ho
      refine ⟨?_, ?_, ?_, ?_, ?_, ?_, ?_, ?_, ?_, ?_, ?_, ?_⟩ <;>
        try simp only []
      all_goals first
        | omega
        | (intros; trivial)
        | (intros; omega)
        | (intro _ _; rfl)
        | (intro ha hb; exact (hp ⟨ha, hb⟩).elim)
        | (intro ha; exact h5 ha)
        | (intro ha; exact h6 ha)
        | (intro ha; exact h7 ha)
        | (intro ha; exact h8 ha)
    · exact ⟨h1, h2, h3, h4, h5, h6, h7, h8, h9, h10, h11, h12⟩
  · -- read the found-flag
    have hown := h4 (by omega) (by omega)
    have hp : ¬ (1 ≤ ppc ∧ ppc ≤ 4) := by
      rintro ⟨ha, hb⟩
      rw [h3 ha hb] at hown
      simp at hown
    refine ⟨?_, ?_, ?_, ?_, ?_, ?_, ?_, ?_, ?_, ?_, ?_, ?_⟩ <;>
      try simp only []
    all_goals first
      | omega
      | (intros; trivial)
      | (intros; omega)
      | (intro _ _; rfl)
      | (intro _ _; exact hown)
      | (intro ha hb; exact (hp ⟨ha, hb⟩).elim)
      | (intro ha; exact h5 ha)
      | (intro ha; exact h6 ha)
      | (intro ha; exact h7 ha)
      | (intro ha; exact h8 ha)
  · -- read the corner sequence
    have hown := h4 (by omega) (by omega)
    have hp : ¬ (1 ≤ ppc ∧ ppc ≤ 4) := by
      rintro ⟨ha, hb⟩
      rw [h3 ha hb] at hown
      simp at hown
    refine ⟨?_, ?_, ?_, ?_, ?_, ?_, ?_, ?_, ?_, ?_, ?_, ?_⟩ <;>
      try simp only []
    all_goals first
      | omega
      | (intros; trivial)
      | (intros; omega)
      | (intro _ _; rfl)
      | (intro _ _; exact hown)
      | (intro ha hb; exact (hp ⟨ha, hb⟩).elim)
      | (intro _ _; exact h9 (by omega) (by omega))
      | (intro ha; exact h5 ha)
      | (intro ha; exact h6 ha)
      | (intro ha; exact h7 ha)
      | (intro ha; exact h8 ha)
  · -- read the frame pixels
    have hown := h4 (by omega) (by omega)
    have hp : ¬ (1 ≤ ppc ∧ ppc ≤ 4) := by
      rintro ⟨ha, hb⟩
      rw [h3 ha hb] at hown
      simp at hown
    refine ⟨?_, ?_, ?_, ?_, ?_, ?_, ?_, ?_, ?_, ?_, ?_, ?_⟩ <;>
      try simp only []
    all_goals first
      | omega
      | (intros; trivial)
      | (intros; omega)
      | (intro _; rfl)
      | (intro _ _; exact hown)
      | (intro ha hb; exact (hp ⟨ha, hb⟩).elim)
      | (intro _ _; exact h9 (by omega) (by omega))
      | (intro _ _; exact h10 (by omega) (by omega))
      | (intro ha; exact h5 ha)
      | (intro ha; exact h6 ha)
      | (intro ha; exact h7 ha)
      | (intro ha; exact h8 ha)
  · -- release: the reader finished; the publisher is outside its critical
    -- section, so the slot is wholly the old or wholly the new result
    have hown := h4 (by omega) (by omega)
    have hp : ¬ (1 ≤ ppc ∧ ppc ≤ 4) := by
      rintro ⟨ha, hb⟩
      rw [h3 ha hb] at hown
      simp at hown
    have hflag := h9 (by omega) (by omega)
    have hcorners := h10 (by omega) (by omega)
    have hframe := h11 rfl
    have hdone : (rf = r0.cornerFoundAllFlag ∧ rc = r0.corners ∧
        rv = r0.videoFrame) ∨
        (rf = p.cornerFoundAllFlag ∧ rc = p.corners ∧
          rv = p.videoFrame) := by
      rcases (by omega : ppc = 0 ∨ ppc = 5) with hq | hq
      · left
        have hs := h5 (by omega)
        subst hs
        exact ⟨hflag, hcorners, hframe⟩
      · right
        have hs := h8 (by omega)
        subst hs
        exact ⟨hflag, hcorners, hframe⟩
    refine ⟨?_, ?_, ?_, ?_, ?_, ?_, ?_, ?_, ?_, ?_, ?_, ?_⟩ <;>
      try simp only []
    all_goals first
      | omega
      | (intros; trivial)
      | (intros; omega)
      | (intro ha hb; exact (hp ⟨ha, hb⟩).elim)
      | (intro ha; exact h5 ha)
      | (intro ha; exact h6 ha)
      | (intro ha; exact h7 ha)
      | (intro ha; exact h8 ha)
      | (intro _; exact hdone)
  · -- already finished
    exact ⟨h1, h2, h3, h4, h5, h6, h7, h8, h9, h10, h11, h12⟩

/-- The invariant is preserved along any schedule. -/
theorem interleave_inv (p r0 : ResultSlot) (sched : List Tid)
    (s : LockedResultState) (h : ResultInv p r0 s) :
    ResultInv p r0 (interleave p sched s) := by
  induction sched generalizing s with
  | nil => exact h
  | cons t rest ih =>
      refine ih (interleaveStep p s t) ?_
      cases t with
      | publisher => exact pubStep_inv p r0 s h
      | reader => exact rdrStep_inv p r0 s h

/-- C9: for every interleaving of the publishing path (`frame()` copying
the completed worker data into the result slot under the result lock)
with a concurrent reader (`cornerFinderResultsLockAndFetch` ..
`cornerFinderResultsUnlock`), once the reader has finished, the triple it
observed — found-flag, corner sequence, frame pixels — is wholly the
previously published result or wholly the newly published one; it is
never a half-written mixture. -/
theorem reader_never_observes_torn_result (p r0 : ResultSlot)
    (sched : List Tid)
    (hdone : (interleave p sched (initialLockedState r0)).rdrPc = 5) :
    ((interleave p sched (initialLockedState r0)).readFlag =
        r0.cornerFoundAllFlag ∧
      (interleave p sched (initialLockedState r0)).readCorners = r0.corners ∧
      (interleave p sched (initialLockedState r0)).readFrame =
        r0.videoFrame) ∨
    ((interleave p sched (initialLockedState r0)).readFlag =
        p.cornerFoundAllFlag ∧
      (interleave p sched (initialLockedState r0)).readCorners = p.corners ∧
      (interleave p sched (initialLockedState r0)).readFrame =
        p.videoFrame) :=
  (interleave_inv p r0 sched (initialLockedState r0)
    (resultInv_init p r0)).readDone hdone

/-- Witness for C9: a concrete schedule in which the reader first contends
for the lock while the publisher holds it (a stuttering blocked acquire)
and then reads; it observes exactly the newly published triple. -/
theorem reader_never_observes_torn_result_witness :
    (interleave ⟨true, [⟨1, 2⟩], [3]⟩
        [Tid.publisher, Tid.reader, Tid.publisher, Tid.publisher,
         Tid.publisher, Tid.publisher, Tid.reader, Tid.reader, Tid.reader,
         Tid.reader, Tid.reader]
        (initialLockedState ⟨false, [], []⟩)).rdrPc = 5 ∧
    (((interleave ⟨true, [⟨1, 2⟩], [3]⟩
        [Tid.publisher, Tid.reader, Tid.publisher, Tid.publisher,
         Tid.publisher, Tid.publisher, Tid.reader, Tid.reader, Tid.reader,
         Tid.reader, Tid.reader]
        (initialLockedState ⟨false, [], []⟩)).readFlag =
          (⟨false, [], []⟩ : ResultSlot).cornerFoundAllFlag ∧
      (interleave ⟨true, [⟨1, 2⟩], [3]⟩
        [Tid.publisher, Tid.reader, Tid.publisher, Tid.publisher,
         Tid.publisher, Tid.publisher, Tid.reader, Tid.reader, Tid.reader,
         Tid.reader, Tid.reader]
        (initialLockedState ⟨false, [], []⟩)).readCorners =
          (⟨false, [], []⟩ : ResultSlot).corners ∧
      (interleave ⟨true, [⟨1, 2⟩], [3]⟩
        [Tid.publisher, Tid.reader, Tid.publisher, Tid.publisher,
         Tid.publisher, Tid.publisher, Tid.reader, Tid.reader, Tid.reader,
         Tid.reader, Tid.reader]
        (initialLockedState ⟨false, [], []⟩)).readFrame =
          (⟨false, [], []⟩ : ResultSlot).videoFrame) ∨
     ((interleave ⟨true, [⟨1, 2⟩], [3]⟩
        [Tid.publisher, Tid.reader, Tid.publisher, Tid.publisher,
         Tid.publisher, Tid.publisher, Tid.reader, Tid.reader, Tid.reader,
         Tid.reader, Tid.reader]
        (initialLockedState ⟨false, [], []⟩)).readFlag =
          (⟨true, [⟨1, 2⟩], [3]⟩ : ResultSlot).cornerFoundAllFlag ∧
      (interleave ⟨true, [⟨1, 2⟩], [3]⟩
        [Tid.publisher, Tid.reader, Tid.publisher, Tid.publisher,
         Tid.publisher, Tid.publisher, Tid.reader, Tid.reader, Tid.reader,
         Tid.reader, Tid.reader]
        (initialLockedState ⟨false, [], []⟩)).readCorners =
          (⟨true, [⟨1, 2⟩], [3]⟩ : ResultSlot).corners ∧
      (interleave ⟨true, [⟨1, 2⟩], [3]⟩
        [Tid.publisher, Tid.reader, Tid.publisher, Tid.publisher,
         Tid.publisher, Tid.publisher, Tid.reader, Tid.reader, Tid.reader,
         Tid.reader, Tid.reader]
        (initialLockedState ⟨false, [], []⟩)).readFrame =
          (⟨true, [⟨1, 2⟩], [3]⟩ : ResultSlot).videoFrame)) :=
  ⟨by decide,
   reader_never_observes_torn_result ⟨true, [⟨1, 2⟩], [3]⟩ ⟨false, [], []⟩
     [Tid.publisher, Tid.reader, Tid.publisher, Tid.publisher,
      Tid.publisher, Tid.publisher, Tid.reader, Tid.reader, Tid.reader,
      Tid.reader, Tid.reader] (by decide)⟩

end ARCalib
